import Mathlib

/-!
Verification of the email ingestion / unsubscribe pipeline.

The development shallowly embeds the pure core of the repository:
the unsubscribe detector (src/lib/unsubscribe-detector.ts), the tiered
unsubscribe executor (src/lib/unsubscribe-automation.ts), the AI
classification gate (src/lib/openai.ts), the message-normalizer
truncation (src/lib/gmail.ts, parseEmailMessage), and the cron sync
loop (src/app/api/cron/sync-emails/route.ts).  External effects
(HTTP fetch, the headless browser, the HTML parser, the AI model, the
database) are passed in as explicit oracle values; every function is
otherwise a direct transcription of the TypeScript source.

Strings are modelled as lists of characters; a JavaScript string is a
sequence of UTF-16 code units, and all concrete inputs used below stay
inside the basic multilingual plane where one Lean Char corresponds to
one code unit.
-/

abbrev Str := List Char

def str (s : String) : Str := s.data

/-- Whitespace set of the JavaScript `\s` class and of `String.prototype.trim`
(WhiteSpace plus LineTerminator). -/
def jsIsSpace (c : Char) : Bool :=
  let n := c.toNat
  n = 0x20 || n = 0x9 || n = 0xa || n = 0xd || n = 0xb || n = 0xc ||
  n = 0xa0 || n = 0x1680 || (0x2000 ≤ n && n ≤ 0x200a) ||
  n = 0x2028 || n = 0x2029 || n = 0x202f || n = 0x205f ||
  n = 0x3000 || n = 0xfeff

/-- JavaScript `trim`: drop leading and trailing whitespace. -/
def jsTrim (s : Str) : Str :=
  (s.dropWhile jsIsSpace).reverse.dropWhile jsIsSpace |>.reverse

/-- JavaScript `toLowerCase` restricted to the simple one-to-one case
mapping (sufficient for every character handled here). -/
def jsLower (s : Str) : Str := s.map Char.toLower

/-!
A small regular-expression language covering exactly the constructs used
by the patterns in the source: literal characters (matched
case-insensitively, all patterns carry the i flag), `c?`, `.`, `.?`,
`.*` and `\s+`.  A dot never matches a newline (no s flag in the source).
-/

inductive RAtom where
  | lit (c : Char)
  | litOpt (c : Char)
  | dot
  | dotOpt
  | dotStar
  | ws1
deriving DecidableEq

abbrev RPat := List RAtom

/-- Matching of a pattern against some prefix of the input, with
backtracking for the optional and starred atoms.  The fuel argument makes
the recursion structural so that concrete inputs evaluate inside the
kernel; every recursive call strictly decreases the sum of the pattern
length and the input length, so fuel equal to that sum plus one is never
exhausted. -/
def matchAtomsF : Nat → RPat → Str → Bool
  | 0, _, _ => false
  | _ + 1, [], _ => true
  | fuel + 1, RAtom.lit c :: as, s =>
    match s with
    | [] => false
    | x :: xs => decide (Char.toLower x = c) && matchAtomsF fuel as xs
  | fuel + 1, RAtom.litOpt c :: as, s =>
    (match s with
     | [] => false
     | x :: xs => decide (Char.toLower x = c) && matchAtomsF fuel as xs) ||
    matchAtomsF fuel as s
  | fuel + 1, RAtom.dot :: as, s =>
    match s with
    | [] => false
    | x :: xs => decide (x ≠ '\n') && matchAtomsF fuel as xs
  | fuel + 1, RAtom.dotOpt :: as, s =>
    (match s with
     | [] => false
     | x :: xs => decide (x ≠ '\n') && matchAtomsF fuel as xs) ||
    matchAtomsF fuel as s
  | fuel + 1, RAtom.dotStar :: as, s =>
    matchAtomsF fuel as s ||
    (match s with
     | [] => false
     | x :: xs => decide (x ≠ '\n') && matchAtomsF fuel (RAtom.dotStar :: as) xs)
  | fuel + 1, RAtom.ws1 :: as, s =>
    match s with
    | [] => false
    | x :: xs =>
      jsIsSpace x && (matchAtomsF fuel as xs || matchAtomsF fuel (RAtom.ws1 :: as) xs)

def matchAtoms (as : RPat) (s : Str) : Bool :=
  matchAtomsF (as.length + s.length + 1) as s

/-- JavaScript `RegExp.prototype.test`: the pattern matches at some
position of the input. -/
def rtest (p : RPat) : Str → Bool
  | [] => matchAtoms p []
  | x :: xs => matchAtoms p (x :: xs) || rtest p xs

def lits (s : String) : RPat := s.data.map RAtom.lit

/-!
Pattern sets of the source.  The six detector patterns are the local
`unsubscribePatterns` list of extractFromBody in
src/lib/unsubscribe-detector.ts; the three executor lists are
SUCCESS_PATTERNS, UNSUBSCRIBE_PATTERNS and ERROR_PATTERNS of
src/lib/playwright-config.ts.
-/

def unsubscribePatternsDetector : List RPat :=
  [ lits "unsubscribe",
    lits "opt" ++ [RAtom.dotOpt] ++ lits "out",
    lits "remove" ++ [RAtom.dotOpt] ++ lits "me",
    lits "email" ++ [RAtom.dotOpt] ++ lits "preferences",
    lits "manage" ++ [RAtom.dotOpt] ++ lits "subscription" ++ [RAtom.litOpt 's'],
    lits "stop" ++ [RAtom.dotOpt] ++ lits "receiving" ]

def SUCCESS_PATTERNS : List RPat :=
  [ lits "unsubscribed",
    lits "successfully" ++ [RAtom.ws1] ++ lits "removed",
    lits "you" ++ [RAtom.ws1] ++ lits "have" ++ [RAtom.ws1] ++ lits "been" ++
      [RAtom.ws1] ++ lits "removed",
    lits "you" ++ [RAtom.ws1] ++ lits "will" ++ [RAtom.ws1] ++ lits "no" ++
      [RAtom.ws1] ++ lits "longer" ++ [RAtom.ws1] ++ lits "receive",
    lits "email" ++ [RAtom.ws1] ++ lits "preferences" ++ [RAtom.ws1] ++ lits "updated",
    lits "subscription" ++ [RAtom.ws1] ++ lits "cancelled",
    lits "opt" ++ [RAtom.dot] ++ lits "out" ++ [RAtom.ws1] ++ lits "confirmed",
    lits "removed" ++ [RAtom.ws1] ++ lits "from" ++ [RAtom.dotStar] ++ lits "list",
    lits "thank" ++ [RAtom.ws1] ++ lits "you" ]

def UNSUBSCRIBE_PATTERNS : List RPat :=
  [ lits "unsubscribe",
    lits "opt" ++ [RAtom.dotOpt] ++ lits "out",
    lits "remove" ++ [RAtom.dotStar] ++ lits "email",
    lits "stop" ++ [RAtom.dotStar] ++ lits "emails",
    lits "cancel" ++ [RAtom.dotStar] ++ lits "subscription",
    lits "do" ++ [RAtom.dotStar] ++ lits "not" ++ [RAtom.dotStar] ++ lits "send",
    lits "delete" ++ [RAtom.dotStar] ++ lits "subscription",
    lits "confirm" ++ [RAtom.dotStar] ++ lits "unsubscribe" ]

def ERROR_PATTERNS : List RPat :=
  [ lits "captcha",
    lits "recaptcha",
    lits "verification",
    lits "sign" ++ [RAtom.ws1] ++ lits "in",
    lits "log" ++ [RAtom.ws1] ++ lits "in",
    lits "authentication" ++ [RAtom.ws1] ++ lits "required",
    lits "access" ++ [RAtom.ws1] ++ lits "denied" ]

/-!
Unsubscribe detector, src/lib/unsubscribe-detector.ts.  The header tier
works on the raw List-Unsubscribe header string; the body tier works on
the anchor records that the cheerio HTML parse of the body yields, so the
parse itself is an oracle: `none` stands for a parse that threw, `some
links` for the anchors found, in document order.
-/

/-- Splitting of the input at the first closing angle bracket: returns
the characters before it and the rest after it. -/
def splitAtGt : Str → Option (Str × Str)
  | [] => none
  | c :: cs =>
    if c = '>' then some ([], cs)
    else
      match splitAtGt cs with
      | none => none
      | some (a, b) => some (c :: a, b)

/-- Global matches of the JavaScript regex for angle-bracket groups,
with fuel making the recursion structural: each match is the nonempty
run of characters strictly between an opening and the next closing angle
bracket, scanning left to right and resuming after each match.  Every
step consumes at least one character, so fuel equal to the input length
is never exhausted. -/
def bracketMatchesF : Nat → Str → List Str
  | 0, _ => []
  | _ + 1, [] => []
  | fuel + 1, c :: cs =>
    if c = '<' then
      match splitAtGt cs with
      | some (content, rest) =>
        if content = [] then bracketMatchesF fuel cs
        else content :: bracketMatchesF fuel rest
      | none => []
    else bracketMatchesF fuel cs

def bracketMatches (s : Str) : List Str :=
  bracketMatchesF s.length s

/-- Transcription of extractFromHeader: collect the angle-bracket
groups, trim each, and return the first group that starts with http,
else the first that starts with mailto, else nothing. -/
def extractFromHeader (headerValue : Str) : Option Str :=
  match bracketMatches headerValue with
  | [] => none
  | ms =>
    let urls := ms.map jsTrim
    match urls.find? (fun u => (str "http").isPrefixOf u) with
    | some u => some u
    | none => urls.find? (fun u => (str "mailto:").isPrefixOf u)

/-- JavaScript `String.prototype.includes`: the needle occurs as a
contiguous substring of the haystack. -/
def includesStr (needle : Str) : Str → Bool
  | [] => needle.isPrefixOf []
  | x :: xs => needle.isPrefixOf (x :: xs) || includesStr needle xs

/-- One anchor element as seen by the body tier of the detector: the
href attribute (an absent attribute is the empty string), the raw inner
text, the class attribute (the source writes `|| \x27\x27` for an absent
attribute), the text of the parent element, and the two structural
footer tests the source performs through cheerio. -/
structure BodyLink where
  href : Str
  text : Str
  className : Str
  parentText : Str
  parentIsFooter : Bool
  closestFooter : Bool
deriving DecidableEq

/-- Scoring of one anchor, the body of the `links.each` callback of
extractFromBody: +3 for an unsubscribe pattern in the lowercased href,
+5 for one in the trimmed link text, +2 for one in the class attribute,
+1 for a footer-like parent. -/
def linkPriority (l : BodyLink) : Nat :=
  let hrefLower := jsLower l.href
  let text := jsTrim l.text
  let p1 := if unsubscribePatternsDetector.any (fun p => rtest p hrefLower) then 3 else 0
  let p2 := if unsubscribePatternsDetector.any (fun p => rtest p text) then 5 else 0
  let p3 := if unsubscribePatternsDetector.any (fun p => rtest p l.className) then 2 else 0
  let parentTextLower := jsLower l.parentText
  let p4 :=
    if includesStr (str "footer") parentTextLower || l.parentIsFooter || l.closestFooter
    then 1 else 0
  p1 + p2 + p3 + p4

/-- One entry of the candidateLinks array of the source. -/
structure Cand where
  href : Str
  priority : Nat
deriving DecidableEq

/-- Accumulation of candidateLinks in document order: anchors whose href
is falsy or does not start with http are skipped, the rest are kept
exactly when their priority is positive. -/
def candidateLinks (links : List BodyLink) : List Cand :=
  links.filterMap fun l =>
    if l.href = [] ∨ ¬ (str "http").isPrefixOf l.href then none
    else
      let p := linkPriority l
      if p > 0 then some ⟨l.href, p⟩ else none

/-- Head of the stable descending sort of the candidate list.  The
source sorts with the comparator b.priority minus a.priority and takes
element zero; Array.prototype.sort is stable, so that head is the first
candidate of maximal priority, which this fold computes directly. -/
def bestCand : List Cand → Option Cand
  | [] => none
  | c :: cs =>
    match bestCand cs with
    | none => some c
    | some b => if b.priority > c.priority then some b else some c

/-- Transcription of extractFromBody.  The argument is the outcome of
the cheerio parse of the body: `none` models the catch branch (a parse
that threw yields null), `some links` the anchors with an href, in
document order. -/
def extractFromBody (parsed : Option (List BodyLink)) : Option Str :=
  match parsed with
  | none => none
  | some links =>
    match bestCand (candidateLinks links) with
    | some c => some c.href
    | none => none

inductive UnsubMethod where
  | header
  | link
  | none
deriving DecidableEq

structure UnsubscribeInfo where
  url : Option Str
  method : UnsubMethod
deriving DecidableEq

/-- Transcription of extractUnsubscribeInfo.  The first argument is the
parse oracle for the body tier; the second is the listUnsubscribe field
of the headers object, where `none` models an absent field and an empty
string is falsy exactly as in the source. -/
def extractUnsubscribeInfo (parsedBody : Option (List BodyLink))
    (listUnsubscribe : Option Str) : UnsubscribeInfo :=
  let headerUrl : Option Str :=
    match listUnsubscribe with
    | some h => if h = [] then none else extractFromHeader h
    | none => none
  match headerUrl with
  | some u => ⟨some u, UnsubMethod.header⟩
  | none =>
    match extractFromBody parsedBody with
    | some u => ⟨some u, UnsubMethod.link⟩
    | none => ⟨none, UnsubMethod.none⟩

/-!
Tiered unsubscribe executor, src/lib/unsubscribe-automation.ts.  The
network and the headless browser are oracles: a FetchOutcome describes
what the single Tier-1 GET did, a Tier2Env describes what the browser
session observed.  Everything else is a transcription of the source.
-/

def natToStr (n : Nat) : Str := (Nat.repr n).data

inductive UMethod where
  | header
  | simpleClick
  | aiForm
  | manual
deriving DecidableEq

/-- Rendering of the method union type of the source, whose literals are
the strings header, simple-click, ai-form and manual. -/
def methodStr : UMethod → Str
  | UMethod.header => str "header"
  | UMethod.simpleClick => str "simple-click"
  | UMethod.aiForm => str "ai-form"
  | UMethod.manual => str "manual"

structure ScreenshotPaths where
  before : Option Str := none
  after : Option Str := none
deriving DecidableEq

structure UnsubscribeResult where
  success : Bool
  method : UMethod
  message : Str
  screenshotPaths : Option ScreenshotPaths := none
  error : Option Str := none
deriving DecidableEq

/-- Outcome of the Tier-1 fetch: either the awaited fetch (or the read
of the response body) threw with the given message, or a response
arrived with the given ok flag, status, status text and body. -/
inductive FetchOutcome where
  | thrown (msg : Str)
  | resp (ok : Bool) (status : Nat) (statusText : Str) (body : Str)
deriving DecidableEq

/-- Transcription of executeHeaderUnsubscribe (Tier 1). -/
def executeHeaderUnsubscribe (url : Str) (net : FetchOutcome) : UnsubscribeResult :=
  if (str "mailto:").isPrefixOf url then
    { success := false, method := UMethod.header,
      message := str "Mailto unsubscribe requires email sending (not implemented)",
      error := some (str "Mailto method not supported in this implementation") }
  else
    match net with
    | FetchOutcome.thrown m =>
      { success := false, method := UMethod.header,
        message := str "Failed to execute header unsubscribe: " ++ m,
        error := some m }
    | FetchOutcome.resp ok status statusText body =>
      if ¬ ok then
        { success := false, method := UMethod.header,
          message := str "HTTP " ++ natToStr status ++ str ": " ++ statusText,
          error := some (str "Failed to access unsubscribe URL: " ++ natToStr status) }
      else if SUCCESS_PATTERNS.any (fun p => rtest p body) then
        { success := true, method := UMethod.header,
          message := str "Successfully unsubscribed via List-Unsubscribe header" }
      else
        { success := false, method := UMethod.header,
          message := str "No clear confirmation from header method, will try browser automation",
          error := some (str "Could not confirm unsubscribe via header method") }

/-- Observations of one Tier-2 browser session: navFail is the message
of a navigation that threw or loaded with a non-ok status (the catch
branch of the source), content is the rendered page content, buttons and
links are the text contents of the located elements in page order (null
text is `none`), afterContent is the content after the click, and now is
the clock value used for screenshot file names. -/
structure Tier2Env where
  navFail : Option Str
  content : Str
  buttons : List (Option Str)
  links : List (Option Str)
  afterContent : Str
  now : Nat
deriving DecidableEq

/-- Relative screenshot path returned by saveScreenshot. -/
def screenshotPath (attemptId suffix : Str) (now : Nat) : Str :=
  str "/unsubscribe-logs/" ++ attemptId ++ str "/" ++ suffix ++ str "-" ++
    natToStr now ++ str ".png"

/-- First element of the given list whose text is truthy and matches the
pattern, mirroring the per-element check of the click loop. -/
def findText (elems : List (Option Str)) (p : RPat) : Option Str :=
  elems.findSome? fun t? =>
    match t? with
    | some t => if t = [] then none else if rtest p t then some t else none
    | none => none

/-- The click-search loop of Tier 2: for each pattern in list order, all
buttons are tried first, then all links; the description of the first
element clicked is returned. -/
def searchClick : List RPat → List (Option Str) → List (Option Str) → Option Str
  | [], _, _ => none
  | p :: ps, buttons, links =>
    match findText buttons p with
    | some t => some (str "button: \"" ++ t ++ str "\"")
    | none =>
      match findText links p with
      | some t => some (str "link: \"" ++ t ++ str "\"")
      | none => searchClick ps buttons links

/-- Transcription of executeSimpleUnsubscribe (Tier 2).  The modelled
fault path is a navigation failure; screenshots and clicks themselves
are taken to succeed. -/
def executeSimpleUnsubscribe (env : Tier2Env) (attemptId : Str) : UnsubscribeResult :=
  match env.navFail with
  | some errMsg =>
    { success := false, method := UMethod.simpleClick,
      message := str "Browser automation failed: " ++ errMsg,
      error := some errMsg,
      screenshotPaths :=
        some { after := some (screenshotPath attemptId (str "error") env.now) } }
  | none =>
    let beforePath := screenshotPath attemptId (str "before") env.now
    if ERROR_PATTERNS.any (fun p => rtest p env.content) then
      { success := false, method := UMethod.simpleClick,
        message := str "Page requires CAPTCHA or login",
        error := some (str "CAPTCHA or authentication required"),
        screenshotPaths := some { before := some beforePath } }
    else
      match searchClick UNSUBSCRIBE_PATTERNS env.buttons env.links with
      | none =>
        { success := false, method := UMethod.simpleClick,
          message := str "Could not find unsubscribe button or link",
          error := some (str "No matching unsubscribe element found"),
          screenshotPaths :=
            some { before := some beforePath,
                   after := some (screenshotPath attemptId (str "after-not-found") env.now) } }
      | some clickedElement =>
        let afterPath := screenshotPath attemptId (str "after") env.now
        if SUCCESS_PATTERNS.any (fun p => rtest p env.afterContent) then
          { success := true, method := UMethod.simpleClick,
            message := str "Successfully unsubscribed by clicking " ++ clickedElement,
            screenshotPaths := some { before := some beforePath, after := some afterPath } }
        else
          { success := false, method := UMethod.simpleClick,
            message := str "Clicked " ++ clickedElement ++
              str " but could not confirm success",
            error := some (str "No confirmation message found after clicking"),
            screenshotPaths := some { before := some beforePath, after := some afterPath } }

/-- Transcription of unsubscribeEmail: Tier 1 first; on a Tier-1
non-success Tier 2 runs; on a Tier-2 non-success the Tier-2 result is
returned with the manual-action message wrapped around it. -/
def unsubscribeEmail (url : Str) (net : FetchOutcome) (env : Tier2Env)
    (attemptId : Str) : UnsubscribeResult :=
  let tier1Result := executeHeaderUnsubscribe url net
  if tier1Result.success then tier1Result
  else
    let tier2Result := executeSimpleUnsubscribe env attemptId
    if tier2Result.success then tier2Result
    else
      { tier2Result with
        message := str "Automated unsubscribe failed. " ++ tier2Result.message ++
          str ". Manual unsubscribe recommended." }

/-!
Classification orchestrator, src/lib/openai.ts.  The model call is an
oracle: `none` stands for a missing message content (the source then
throws), `some r` for a content that JSON-parsed to the result r.
Confidence, a JavaScript number in the unit interval, is modelled as a
rational; every comparison performed by the source at the values the
claims mention agrees between the two representations.
-/

instance {e a : Type} [DecidableEq e] [DecidableEq a] : DecidableEq (Except e a) :=
  fun x y =>
    match x, y with
    | Except.error u, Except.error v =>
      if h : u = v then isTrue (congrArg Except.error h)
      else isFalse (fun hh => h (Except.error.inj hh))
    | Except.error _, Except.ok _ => isFalse (fun hh => Except.noConfusion hh)
    | Except.ok _, Except.error _ => isFalse (fun hh => Except.noConfusion hh)
    | Except.ok u, Except.ok v =>
      if h : u = v then isTrue (congrArg Except.ok h)
      else isFalse (fun hh => h (Except.ok.inj hh))

structure ClassificationResult where
  categoryId : Option Str
  confidence : ℚ
  reasoning : Str
deriving DecidableEq

/-- Transcription of the response handling of classifyEmail: a missing
content throws, a parsed result with confidence below 0.7 is returned
with the category forced to null, any other result is returned
unchanged. -/
def classifyEmail (content : Option ClassificationResult) :
    Except Str ClassificationResult :=
  match content with
  | none => Except.error (str "No response from OpenAI")
  | some result =>
    if result.confidence < 7 / 10 then
      Except.ok { categoryId := none, confidence := result.confidence,
                  reasoning := result.reasoning }
    else
      Except.ok result

/-!
Message normalizer, src/lib/gmail.ts.  The body argument of
parseEmailMessage below is the string that getEmailBody produced; header
values are the decoded payload headers.  The truncation compares the
UTF-8 byte length of the body against MAX_BODY_SIZE but cuts with
substring, which counts UTF-16 code units; both operations are
transcribed exactly.
-/

def MAX_BODY_SIZE : Nat := 50 * 1024

/-- Byte count of one code point in UTF-8, as Buffer.byteLength counts
it. -/
def jsUtf8Size (c : Char) : Nat :=
  if c.toNat < 0x80 then 1
  else if c.toNat < 0x800 then 2
  else if c.toNat < 0x10000 then 3
  else 4

/-- Transcription of Buffer.byteLength(body, utf8). -/
def utf8ByteLength (s : Str) : Nat := (s.map jsUtf8Size).sum

structure RawHeader where
  name : Str
  value : Str
deriving DecidableEq

/-- Case-insensitive first-match header lookup of parseEmailMessage,
with the empty string for a missing header. -/
def getHeader (headers : List RawHeader) (name : Str) : Str :=
  match headers.find? (fun h => decide (jsLower h.name = jsLower name)) with
  | some h => h.value
  | none => []

/-- Leftmost match of the regex the source applies to the
List-Unsubscribe header: an angle-bracket group whose content starts
with the scheme http or https followed by the double slash. -/
def findHttpBracket : Str → Option Str
  | [] => none
  | c :: cs =>
    if c = '<' then
      match splitAtGt cs with
      | some (content, _) =>
        if (str "http://").isPrefixOf content ∨ (str "https://").isPrefixOf content then
          some content
        else findHttpBracket cs
      | none => none
    else findHttpBracket cs

structure ParsedEmail where
  gmailId : Str
  subject : Str
  fromAddr : Str
  body : Str
  bodyTruncated : Bool
  unsubscribeLink : Option Str
  unsubscribeMethod : Str
  listUnsubscribe : Str
deriving DecidableEq

/-- Transcription of parseEmailMessage.  The received-at field, a Date
parse of the Date header, involves no claim and is omitted; the fromAddr
field carries the From header (from is a reserved word here). -/
def parseEmailMessage (gmailId : Str) (headers : List RawHeader) (rawBody : Str) :
    ParsedEmail :=
  let subject := getHeader headers (str "Subject")
  let fromA := getHeader headers (str "From")
  let listUnsubscribe := getHeader headers (str "List-Unsubscribe")
  let truncPair :=
    if utf8ByteLength rawBody > MAX_BODY_SIZE then (rawBody.take MAX_BODY_SIZE, true)
    else (rawBody, false)
  let linkPair :=
    if listUnsubscribe ≠ [] then
      match findHttpBracket listUnsubscribe with
      | some u => (some u, str "header")
      | none => (none, str "none")
    else (none, str "none")
  { gmailId := gmailId, subject := subject, fromAddr := fromA,
    body := truncPair.1, bodyTruncated := truncPair.2,
    unsubscribeLink := linkPair.1, unsubscribeMethod := linkPair.2,
    listUnsubscribe := listUnsubscribe }

/-!
Sync coordinator, src/app/api/cron/sync-emails/route.ts, per-message
loop.  The database is the list of persisted rows in insertion order;
findUnique and the unique constraint on the gmail id are transcribed on
that list.  The race argument holds rows that a concurrent sync inserts
between the findUnique check and the create call, which is exactly the
window in which the source can see the Prisma P2002 duplicate-key error;
a lone sync passes the empty list.  The AI calls are oracles giving the
awaited outcome of summarizeEmail and classifyEmail.
-/

structure EmailRow where
  gmailId : Str
  subject : Str
  fromAddr : Str
  body : Str
  bodyTruncated : Bool
  unsubscribeLink : Option Str
  unsubscribeMethod : Str
  summary : Option Str
  categoryId : Option Str
  archived : Bool
deriving DecidableEq

inductive PrismaError where
  | P2002
deriving DecidableEq

/-- Transcription of prisma.email.findUnique on the gmail id. -/
def findUniqueEmail (db : List EmailRow) (gmailId : Str) : Option EmailRow :=
  db.find? fun r => decide (r.gmailId = gmailId)

/-- Transcription of prisma.email.create: the unique constraint on the
gmail id raises P2002 when a row with that id exists, otherwise the row
is appended. -/
def dbCreate (db : List EmailRow) (r : EmailRow) : Except PrismaError (List EmailRow) :=
  if (findUniqueEmail db r.gmailId).isSome then Except.error PrismaError.P2002
  else Except.ok (db ++ [r])

structure AiOracle where
  summarizeR : Except Str Str
  classifyR : Except Str ClassificationResult
deriving DecidableEq

/-- The AI block of the loop: summary and category start as null; the
try block first awaits the summary, then the classification; the catch
swallows the failure and keeps whatever was assigned before it. -/
def aiStep (o : AiOracle) : Option Str × Option Str :=
  match o.summarizeR with
  | Except.error _ => (none, none)
  | Except.ok s =>
    match o.classifyR with
    | Except.error _ => (some s, none)
    | Except.ok c => (some s, c.categoryId)

/-- Row assembled by the create call of the loop. -/
def mkRow (e : ParsedEmail) (link : Option Str) (method : Str)
    (summary categoryId : Option Str) : EmailRow :=
  { gmailId := e.gmailId, subject := e.subject, fromAddr := e.fromAddr,
    body := e.body, bodyTruncated := e.bodyTruncated,
    unsubscribeLink := link, unsubscribeMethod := method,
    summary := summary, categoryId := categoryId, archived := false }

/-- Transcription of the per-message body of the sync loop: body-tier
override of the detected unsubscribe link, findUnique duplicate skip, AI
step, create with the P2002 catch treated as a benign skip.  The remote
archive call touches no local state and is omitted. -/
def processEmail (db race : List EmailRow) (e : ParsedEmail)
    (parsedBody : Option (List BodyLink)) (ai : AiOracle) : List EmailRow :=
  let info := extractUnsubscribeInfo parsedBody (some e.listUnsubscribe)
  let override := info.method = UnsubMethod.link ∧ info.url.isSome
  let link := if override then info.url else e.unsubscribeLink
  let method := if override then str "link" else e.unsubscribeMethod
  if (findUniqueEmail db e.gmailId).isSome then db
  else
    let db2 := db ++ race
    let pair := aiStep ai
    match dbCreate db2 (mkRow e link method pair.1 pair.2) with
    | Except.error _ => db2
    | Except.ok d => d

structure SyncItem where
  email : ParsedEmail
  parsedBody : Option (List BodyLink)
  ai : AiOracle
deriving DecidableEq

/-- The message loop of one sync run without concurrent writers. -/
def processEmails (db : List EmailRow) (items : List SyncItem) : List EmailRow :=
  items.foldl (fun d it => processEmail d [] it.email it.parsedBody it.ai) db

/-- At most one row per gmail id. -/
abbrev uniqueIds (db : List EmailRow) : Prop := (db.map (fun r => r.gmailId)).Nodup

/-- Maximal priority among the collected candidates, zero for an empty
list; used to state which candidate the sorted selection returns. -/
def maxScore (cs : List Cand) : Nat := cs.foldr (fun c m => max c.priority m) 0

/-!
Theorems.
-/

/-- C2: classifyEmail forces the category to null whenever the reported
confidence is strictly below 0.7, keeping the confidence and the
reasoning, and returns the model result unchanged whenever the
confidence is at least 0.7. -/
theorem C2_confidence_gate (r : ClassificationResult) :
    (r.confidence < 7 / 10 →
      classifyEmail (some r) =
        Except.ok ⟨none, r.confidence, r.reasoning⟩) ∧
    (7 / 10 ≤ r.confidence → classifyEmail (some r) = Except.ok r) := by
  constructor
  · intro h
    simp only [classifyEmail]
    rw [if_pos h]
  · intro h
    simp only [classifyEmail]
    rw [if_neg (not_lt.mpr h)]

/-- C2 witness: at confidence 0.65 with a proposed category the result
has a null category; at confidence 0.71 the proposed category stands. -/
theorem C2_confidence_gate_witness :
    ((65 / 100 : ℚ) < 7 / 10 ∧
      classifyEmail (some ⟨some (str "cat1"), 65 / 100, str "why"⟩) =
        Except.ok ⟨none, 65 / 100, str "why"⟩) ∧
    ((7 / 10 : ℚ) ≤ 71 / 100 ∧
      classifyEmail (some ⟨some (str "cat1"), 71 / 100, str "why"⟩) =
        Except.ok ⟨some (str "cat1"), 71 / 100, str "why"⟩) :=
  ⟨⟨by norm_num,
    (C2_confidence_gate ⟨some (str "cat1"), 65 / 100, str "why"⟩).1 (by norm_num)⟩,
   ⟨by norm_num,
    (C2_confidence_gate ⟨some (str "cat1"), 71 / 100, str "why"⟩).2 (by norm_num)⟩⟩

theorem utf8ByteLength_replicate (n : Nat) (c : Char) :
    utf8ByteLength (List.replicate n c) = n * jsUtf8Size c := by
  induction n with
  | zero => simp [utf8ByteLength]
  | succ k ih =>
    simp only [List.replicate_succ, utf8ByteLength, List.map_cons, List.sum_cons]
    simp only [utf8ByteLength] at ih
    rw [ih]
    ring

theorem parseEmailMessage_trunc (g : Str) (hs : List RawHeader) (b : Str)
    (h : utf8ByteLength b > MAX_BODY_SIZE) :
    (parseEmailMessage g hs b).bodyTruncated = true ∧
    (parseEmailMessage g hs b).body = b.take MAX_BODY_SIZE := by
  simp only [parseEmailMessage]
  rw [if_pos h]
  exact ⟨rfl, rfl⟩

/-- C3: the truncation of parseEmailMessage compares UTF-8 bytes but
cuts UTF-16 code units, so a body of 30000 two-byte characters (60000
UTF-8 bytes) is flagged as truncated yet stored whole, at 60000 bytes,
above the 51200-byte cap; the claim that the stored body is always at
most 50 KB is therefore false of the code at this input. -/
theorem C3_truncation_unit_mismatch :
    utf8ByteLength (List.replicate 30000 'é') = 60000 ∧
    (parseEmailMessage (str "m1") [] (List.replicate 30000 'é')).bodyTruncated = true ∧
    (parseEmailMessage (str "m1") [] (List.replicate 30000 'é')).body =
      List.replicate 30000 'é' ∧
    MAX_BODY_SIZE <
      utf8ByteLength (parseEmailMessage (str "m1") [] (List.replicate 30000 'é')).body := by
  have h2 : jsUtf8Size 'é' = 2 := by decide
  have hlen : utf8ByteLength (List.replicate 30000 'é') = 60000 := by
    rw [utf8ByteLength_replicate, h2]
  have hcond : utf8ByteLength (List.replicate 30000 'é') > MAX_BODY_SIZE := by
    rw [hlen]; norm_num [MAX_BODY_SIZE]
  have htake : List.take MAX_BODY_SIZE (List.replicate 30000 'é') =
      List.replicate 30000 'é' := by
    apply List.take_of_length_le
    rw [List.length_replicate]
    norm_num [MAX_BODY_SIZE]
  obtain ⟨hflag, hbody⟩ := parseEmailMessage_trunc (str "m1") [] _ hcond
  rw [htake] at hbody
  refine ⟨hlen, hflag, hbody, ?_⟩
  rw [hbody, hlen]
  norm_num [MAX_BODY_SIZE]

theorem executeHeaderUnsubscribe_method (url : Str) (net : FetchOutcome) :
    (executeHeaderUnsubscribe url net).method = UMethod.header := by
  unfold executeHeaderUnsubscribe
  split
  · rfl
  · split
    · rfl
    · split
      · rfl
      · split <;> rfl

theorem executeSimpleUnsubscribe_method (env : Tier2Env) (attemptId : Str) :
    (executeSimpleUnsubscribe env attemptId).method = UMethod.simpleClick := by
  unfold executeSimpleUnsubscribe
  split
  · rfl
  · split
    · rfl
    · split
      · rfl
      · split <;> rfl

/-- C9 counterexample: a complete run in which Tier 1 is inconclusive
and Tier 2 finds no element to click terminates with the method
rendered as simple-click, which is not among header, tier2-click and
manual, the set the claim states. -/
theorem C9_method_set_counterexample :
    methodStr
        (unsubscribeEmail (str "https://news.example.com/unsub")
          (FetchOutcome.resp true 200 (str "OK") (str "please confirm below"))
          ⟨none, str "pick an option", [], [], str "nothing changed", 7⟩
          (str "attempt-1")).method =
      str "simple-click" ∧
    methodStr
        (unsubscribeEmail (str "https://news.example.com/unsub")
          (FetchOutcome.resp true 200 (str "OK") (str "please confirm below"))
          ⟨none, str "pick an option", [], [], str "nothing changed", 7⟩
          (str "attempt-1")).method ∉
      [str "header", str "tier2-click", str "manual"] := by
  constructor
  · decide
  · decide

/-- C9 amended: every terminal result of unsubscribeEmail is a record
with a success flag, a message and optional screenshot paths, whose
method renders as header or as simple-click (the source union also
declares ai-form and manual, but unsubscribeEmail never produces
them, and tier2-click does not exist in the code). -/
theorem C9_method_values (url : Str) (net : FetchOutcome) (env : Tier2Env)
    (attemptId : Str) :
    methodStr (unsubscribeEmail url net env attemptId).method = str "header" ∨
    methodStr (unsubscribeEmail url net env attemptId).method = str "simple-click" := by
  simp only [unsubscribeEmail]
  split
  · left
    rw [executeHeaderUnsubscribe_method]
    rfl
  · split
    · right
      rw [executeSimpleUnsubscribe_method]
      rfl
    · right
      dsimp only
      rw [executeSimpleUnsubscribe_method]
      rfl

/-- C10: the detector is total and closed over its three methods: a
body whose HTML parse threw contributes no body-tier candidate, the
method of any result is header, link or none, and with a failed parse
the result can never carry the method link. -/
theorem C10_detector_total :
    extractFromBody none = none ∧
    (∀ (pb : Option (List BodyLink)) (hs : Option Str),
      (extractUnsubscribeInfo pb hs).method = UnsubMethod.header ∨
      (extractUnsubscribeInfo pb hs).method = UnsubMethod.link ∨
      (extractUnsubscribeInfo pb hs).method = UnsubMethod.none) ∧
    (∀ hs : Option Str,
      (extractUnsubscribeInfo none hs).method ≠ UnsubMethod.link) := by
  refine ⟨rfl, ?_, ?_⟩
  · intro pb hs
    simp only [extractUnsubscribeInfo]
    split
    · exact Or.inl rfl
    · split
      · exact Or.inr (Or.inl rfl)
      · exact Or.inr (Or.inr rfl)
  · intro hs
    simp only [extractUnsubscribeInfo]
    split
    · simp
    · split
      · simp_all [extractFromBody]
      · simp

/-- C1: when the Tier-1 GET is performed (the target is not a mailto
URI) and returns an ok response whose body matches no
success-confirmation pattern, Tier 1 reports no success, and
unsubscribeEmail neither stops there nor fails outright: its result is
exactly the Tier-2 continuation, the Tier-2 result itself on a Tier-2
success and the manual-action wrap of it otherwise. -/
theorem C1_tier1_inconclusive_escalates (url : Str) (status : Nat)
    (statusText body : Str) (env : Tier2Env) (attemptId : Str)
    (hmail : (str "mailto:").isPrefixOf url = false)
    (hnosucc : SUCCESS_PATTERNS.any (fun p => rtest p body) = false) :
    (executeHeaderUnsubscribe url
      (FetchOutcome.resp true status statusText body)).success = false ∧
    unsubscribeEmail url (FetchOutcome.resp true status statusText body) env attemptId =
      (if (executeSimpleUnsubscribe env attemptId).success then
        executeSimpleUnsubscribe env attemptId
       else
        { executeSimpleUnsubscribe env attemptId with
          message := str "Automated unsubscribe failed. " ++
            (executeSimpleUnsubscribe env attemptId).message ++
            str ". Manual unsubscribe recommended." }) := by
  have h1 : (executeHeaderUnsubscribe url
      (FetchOutcome.resp true status statusText body)).success = false := by
    simp [executeHeaderUnsubscribe, hmail, hnosucc]
  refine ⟨h1, ?_⟩
  simp only [unsubscribeEmail, h1]
  simp

/-- C1 witness: a concrete non-mailto URL whose GET returns HTTP 200
with a body free of confirmation phrases escalates to Tier 2. -/
theorem C1_tier1_inconclusive_escalates_witness :
    ((str "mailto:").isPrefixOf (str "https://news.example.org/unsub") = false ∧
      SUCCESS_PATTERNS.any (fun p => rtest p (str "almost done, confirm below")) = false) ∧
    ((executeHeaderUnsubscribe (str "https://news.example.org/unsub")
        (FetchOutcome.resp true 200 (str "OK")
          (str "almost done, confirm below"))).success = false ∧
      unsubscribeEmail (str "https://news.example.org/unsub")
          (FetchOutcome.resp true 200 (str "OK") (str "almost done, confirm below"))
          ⟨some (str "net::ERR_TIMED_OUT"), [], [], [], [], 5⟩ (str "attempt-9") =
        (if (executeSimpleUnsubscribe
              ⟨some (str "net::ERR_TIMED_OUT"), [], [], [], [], 5⟩
              (str "attempt-9")).success then
          executeSimpleUnsubscribe
            ⟨some (str "net::ERR_TIMED_OUT"), [], [], [], [], 5⟩ (str "attempt-9")
         else
          { executeSimpleUnsubscribe
              ⟨some (str "net::ERR_TIMED_OUT"), [], [], [], [], 5⟩ (str "attempt-9") with
            message := str "Automated unsubscribe failed. " ++
              (executeSimpleUnsubscribe
                ⟨some (str "net::ERR_TIMED_OUT"), [], [], [], [], 5⟩
                (str "attempt-9")).message ++
              str ". Manual unsubscribe recommended." })) :=
  ⟨⟨by decide, by decide⟩,
   C1_tier1_inconclusive_escalates (str "https://news.example.org/unsub") 200
     (str "OK") (str "almost done, confirm below")
     ⟨some (str "net::ERR_TIMED_OUT"), [], [], [], [], 5⟩ (str "attempt-9")
     (by decide) (by decide)⟩

theorem bracketMatches_nil : bracketMatches [] = [] := rfl

/-- C4: the tiered decision order of the detector.  First, whenever some
trimmed angle-bracket group of the header starts with http, the first
such group is returned with method header.  Second, when the header
tier yields nothing and the body parse produced exactly one qualifying
candidate, that candidate is returned with method link.  Third, when
both tiers yield nothing the result is a null target with method
none. -/
theorem C4_detection_priority :
    (∀ (hdr : Str) (pb : Option (List BodyLink)) (u : Str),
      ((bracketMatches hdr).map jsTrim).find?
          (fun v => (str "http").isPrefixOf v) = some u →
      extractUnsubscribeInfo pb (some hdr) = ⟨some u, UnsubMethod.header⟩) ∧
    (∀ (hdr : Str) (links : List BodyLink) (c : Cand),
      extractFromHeader hdr = none →
      candidateLinks links = [c] →
      extractUnsubscribeInfo (some links) (some hdr) =
        ⟨some c.href, UnsubMethod.link⟩) ∧
    (∀ (hdr : Str) (links : List BodyLink),
      extractFromHeader hdr = none →
      candidateLinks links = [] →
      extractUnsubscribeInfo (some links) (some hdr) = ⟨none, UnsubMethod.none⟩) := by
  refine ⟨?_, ?_, ?_⟩
  · intro hdr pb u hfind
    have hne : bracketMatches hdr ≠ [] := by
      intro h0
      rw [h0] at hfind
      simp at hfind
    have hdrne : ¬ hdr = [] := by
      intro h0
      exact hne (h0 ▸ bracketMatches_nil)
    have hfh : extractFromHeader hdr = some u := by
      unfold extractFromHeader
      cases hbm : bracketMatches hdr with
      | nil => exact absurd hbm hne
      | cons m ms =>
        rw [hbm] at hfind
        simp only
        rw [hfind]
    simp only [extractUnsubscribeInfo]
    rw [if_neg hdrne, hfh]
  · intro hdr links c hh hcand
    have hifh : (if hdr = [] then none else extractFromHeader hdr) = none := by
      by_cases h0 : hdr = []
      · rw [if_pos h0]
      · rw [if_neg h0]; exact hh
    simp only [extractUnsubscribeInfo]
    rw [hifh]
    simp only [extractFromBody]
    rw [hcand]
    simp [bestCand]
  · intro hdr links hh hcand
    have hifh : (if hdr = [] then none else extractFromHeader hdr) = none := by
      by_cases h0 : hdr = []
      · rw [if_pos h0]
      · rw [if_neg h0]; exact hh
    simp only [extractUnsubscribeInfo]
    rw [hifh]
    simp only [extractFromBody]
    rw [hcand]
    simp [bestCand]

/-- C4 witness: a header holding an http and a mailto group selects the
http one with method header; a bracket-free header over a body with one
qualifying footer link falls through to that link with method link; and
with neither the result is null with method none. -/
theorem C4_detection_priority_witness :
    (((bracketMatches (str "<https://a.co/u>, <mailto:u@a.co>")).map jsTrim).find?
        (fun v => (str "http").isPrefixOf v) = some (str "https://a.co/u") ∧
      extractUnsubscribeInfo none (some (str "<https://a.co/u>, <mailto:u@a.co>")) =
        ⟨some (str "https://a.co/u"), UnsubMethod.header⟩) ∧
    (extractFromHeader (str "Unsubscribe at our site") = none ∧
      candidateLinks
          [⟨str "https://n.co/unsubscribe", str "Unsubscribe", [],
            str "footer links", false, true⟩] =
        [⟨str "https://n.co/unsubscribe", 9⟩] ∧
      extractUnsubscribeInfo
          (some [⟨str "https://n.co/unsubscribe", str "Unsubscribe", [],
            str "footer links", false, true⟩])
          (some (str "Unsubscribe at our site")) =
        ⟨some (str "https://n.co/unsubscribe"), UnsubMethod.link⟩) ∧
    (extractFromHeader (str "nothing useful") = none ∧
      candidateLinks [⟨str "https://n.co/home", str "Visit us", [], [], false, false⟩] =
        [] ∧
      extractUnsubscribeInfo
          (some [⟨str "https://n.co/home", str "Visit us", [], [], false, false⟩])
          (some (str "nothing useful")) = ⟨none, UnsubMethod.none⟩) :=
  ⟨⟨by decide,
    C4_detection_priority.1 (str "<https://a.co/u>, <mailto:u@a.co>") none
      (str "https://a.co/u") (by decide)⟩,
   ⟨by decide, by decide,
    C4_detection_priority.2.1 (str "Unsubscribe at our site")
      [⟨str "https://n.co/unsubscribe", str "Unsubscribe", [],
        str "footer links", false, true⟩]
      ⟨str "https://n.co/unsubscribe", 9⟩ (by decide) (by decide)⟩,
   ⟨by decide, by decide,
    C4_detection_priority.2.2 (str "nothing useful")
      [⟨str "https://n.co/home", str "Visit us", [], [], false, false⟩]
      (by decide) (by decide)⟩⟩

theorem maxScore_cons (c : Cand) (t : List Cand) :
    maxScore (c :: t) = max c.priority (maxScore t) := rfl

theorem bestCand_eq_none_iff (cs : List Cand) : bestCand cs = none ↔ cs = [] := by
  cases cs with
  | nil => simp [bestCand]
  | cons c t =>
    simp only [bestCand]
    cases bestCand t with
    | none => simp
    | some b =>
      dsimp only
      by_cases h : b.priority > c.priority
      · rw [if_pos h]; simp
      · rw [if_neg h]; simp

theorem bestCand_priority_eq_maxScore :
    ∀ (cs : List Cand) (b : Cand), bestCand cs = some b → b.priority = maxScore cs := by
  intro cs
  induction cs with
  | nil => intro b h; simp [bestCand] at h
  | cons c t ih =>
    intro b h
    simp only [bestCand] at h
    cases hb : bestCand t with
    | none =>
      rw [hb] at h
      have ht : t = [] := (bestCand_eq_none_iff t).mp hb
      subst ht
      simp at h
      rw [← h, maxScore_cons]
      simp [maxScore]
    | some bp =>
      rw [hb] at h
      dsimp only at h
      have hbp := ih bp hb
      by_cases hgt : bp.priority > c.priority
      · rw [if_pos hgt] at h
        simp at h
        rw [← h, maxScore_cons, ← hbp]
        exact (Nat.max_eq_right (Nat.le_of_lt hgt)).symm
      · rw [if_neg hgt] at h
        simp at h
        rw [← h, maxScore_cons, ← hbp]
        exact (Nat.max_eq_left (Nat.not_lt.mp hgt)).symm

theorem bestCand_eq_find_first_max :
    ∀ (cs : List Cand), cs ≠ [] →
      bestCand cs = cs.find? (fun c => decide (maxScore cs ≤ c.priority)) := by
  intro cs
  induction cs with
  | nil => intro h; exact absurd rfl h
  | cons c t ih =>
    intro _
    cases hb : bestCand t with
    | none =>
      have ht : t = [] := (bestCand_eq_none_iff t).mp hb
      subst ht
      simp [bestCand, maxScore, List.find?]
    | some bp =>
      have htne : t ≠ [] := by
        intro h0
        rw [h0] at hb
        simp [bestCand] at hb
      have hbp := bestCand_priority_eq_maxScore t bp hb
      by_cases hgt : bp.priority > c.priority
      · have hmax : maxScore (c :: t) = maxScore t := by
          rw [maxScore_cons]
          exact Nat.max_eq_right (Nat.le_of_lt (hbp ▸ hgt))
        have hpredc : decide (maxScore (c :: t) ≤ c.priority) = false := by
          simp only [decide_eq_false_iff_not]
          rw [hmax, ← hbp]
          exact Nat.not_le.mpr hgt
        simp only [bestCand, hb, if_pos hgt, List.find?_cons, hpredc]
        rw [hmax, ← ih htne, hb]
      · have hle : bp.priority ≤ c.priority := Nat.not_lt.mp hgt
        have hmax : maxScore (c :: t) = c.priority := by
          rw [maxScore_cons]
          exact Nat.max_eq_left (hbp ▸ hle)
        have hpredc : decide (maxScore (c :: t) ≤ c.priority) = true := by
          simp [hmax]
        simp only [bestCand, hb, if_neg hgt, List.find?_cons, hpredc]

/-- C5: when the body tier has at least one scored candidate, the link
returned by extractFromBody is the href of the first candidate, in
document order, whose priority attains the maximum — the stable sort of
the source makes ties resolve to the earliest candidate.  The priority
of each candidate is the sum computed by linkPriority: +3 for an
unsubscribe pattern in the href, +5 for one in the trimmed link text,
+2 for one in the class attribute, +1 for a footer-like container. -/
theorem C5_body_scoring (links : List BodyLink)
    (h : candidateLinks links ≠ []) :
    extractFromBody (some links) =
      ((candidateLinks links).find?
        (fun c => decide (maxScore (candidateLinks links) ≤ c.priority))).map
        (fun c => c.href) := by
  have hmap : extractFromBody (some links) =
      (bestCand (candidateLinks links)).map (fun c => c.href) := by
    simp only [extractFromBody]
    cases bestCand (candidateLinks links) <;> rfl
  rw [hmap, bestCand_eq_find_first_max _ h]

/-- C5 witness: two candidates with the equal score 5 (a match in the
link text only); the first in document order is returned. -/
theorem C5_body_scoring_witness :
    (candidateLinks
        [⟨str "https://x.co/a", str "Unsubscribe", [], [], false, false⟩,
         ⟨str "https://x.co/b", str "Opt out", [], [], false, false⟩] ≠ [] ∧
      extractFromBody
          (some [⟨str "https://x.co/a", str "Unsubscribe", [], [], false, false⟩,
                 ⟨str "https://x.co/b", str "Opt out", [], [], false, false⟩]) =
        ((candidateLinks
            [⟨str "https://x.co/a", str "Unsubscribe", [], [], false, false⟩,
             ⟨str "https://x.co/b", str "Opt out", [], [], false, false⟩]).find?
          (fun c => decide (maxScore (candidateLinks
            [⟨str "https://x.co/a", str "Unsubscribe", [], [], false, false⟩,
             ⟨str "https://x.co/b", str "Opt out", [], [], false, false⟩]) ≤
              c.priority))).map (fun c => c.href)) ∧
    extractFromBody
        (some [⟨str "https://x.co/a", str "Unsubscribe", [], [], false, false⟩,
               ⟨str "https://x.co/b", str "Opt out", [], [], false, false⟩]) =
      some (str "https://x.co/a") :=
  ⟨⟨by decide,
    C5_body_scoring
      [⟨str "https://x.co/a", str "Unsubscribe", [], [], false, false⟩,
       ⟨str "https://x.co/b", str "Opt out", [], [], false, false⟩] (by decide)⟩,
   by decide⟩

theorem processEmail_skip_of_present (db : List EmailRow) (e : ParsedEmail)
    (pb : Option (List BodyLink)) (ai : AiOracle)
    (h : (findUniqueEmail db e.gmailId).isSome = true) :
    processEmail db [] e pb ai = db := by
  simp only [processEmail]
  rw [if_pos h]

theorem dbCreate_duplicate (db : List EmailRow) (r : EmailRow)
    (h : (findUniqueEmail db r.gmailId).isSome = true) :
    dbCreate db r = Except.error PrismaError.P2002 := by
  simp only [dbCreate]
  rw [if_pos h]

theorem findUniqueEmail_eq_none_iff (db : List EmailRow) (i : Str) :
    findUniqueEmail db i = none ↔ ∀ r ∈ db, r.gmailId ≠ i := by
  simp [findUniqueEmail, List.find?_eq_none]

theorem createStep_preserves (db2 : List EmailRow) (row : EmailRow)
    (h : uniqueIds db2) :
    uniqueIds (match dbCreate db2 row with
      | Except.error _ => db2
      | Except.ok d => d) ∧
    ∀ r ∈ db2, r ∈ (match dbCreate db2 row with
      | Except.error _ => db2
      | Except.ok d => d) := by
  cases hc : dbCreate db2 row with
  | error pe =>
    exact ⟨h, fun r hr => hr⟩
  | ok d =>
    dsimp only
    simp only [dbCreate] at hc
    split at hc
    · exact absurd hc (by simp)
    · rename_i hnotdup
      have hd : db2 ++ [row] = d := by
        injection hc
      rw [← hd]
      have hnone : findUniqueEmail db2 row.gmailId = none := by
        cases hfe : findUniqueEmail db2 row.gmailId with
        | none => rfl
        | some v => rw [hfe] at hnotdup; simp at hnotdup
      constructor
      · simp only [uniqueIds, List.map_append, List.map_cons, List.map_nil]
        rw [List.nodup_append]
        refine ⟨h, List.nodup_singleton _, ?_⟩
        rw [List.disjoint_singleton]
        intro hmem
        simp only [List.mem_map] at hmem
        obtain ⟨x, hx, hxid⟩ := hmem
        exact (findUniqueEmail_eq_none_iff _ _).mp hnone x hx hxid
      · intro r hr
        exact List.mem_append_left _ hr

theorem processEmail_preserves (db race : List EmailRow) (e : ParsedEmail)
    (pb : Option (List BodyLink)) (ai : AiOracle)
    (h : uniqueIds (db ++ race)) :
    uniqueIds (processEmail db race e pb ai) ∧
    ∀ r ∈ db, r ∈ processEmail db race e pb ai := by
  simp only [processEmail]
  by_cases hpres : (findUniqueEmail db e.gmailId).isSome = true
  · rw [if_pos hpres]
    refine ⟨?_, fun r hr => hr⟩
    have hu := h
    simp only [uniqueIds, List.map_append] at hu
    exact hu.of_append_left
  · rw [if_neg hpres]
    refine ⟨(createStep_preserves _ _ h).1,
      fun r hr => (createStep_preserves _ _ h).2 r (List.mem_append_left race hr)⟩

theorem processEmails_preserves_unique (items : List SyncItem) :
    ∀ db : List EmailRow, uniqueIds db → uniqueIds (processEmails db items) := by
  induction items with
  | nil => intro db h; exact h
  | cons it rest ih =>
    intro db h
    have hstep : uniqueIds (processEmail db [] it.email it.parsedBody it.ai) := by
      have := processEmail_preserves db [] it.email it.parsedBody it.ai
        (by simpa using h)
      exact this.1
    exact ih _ hstep

/-- C7: ingestion is idempotent on the gmail id.  A message whose id is
already present is skipped, leaving the database unchanged; the unique
constraint raises a duplicate-key error exactly when the id exists at
create time, and the loop treats it as a benign skip that preserves the
at-most-one-row-per-id invariant and every existing row; whole sync
runs preserve the invariant, so any sequence of runs does. -/
theorem C7_idempotent_ingestion :
    (∀ (db : List EmailRow) (e : ParsedEmail) (pb : Option (List BodyLink))
        (ai : AiOracle),
      (findUniqueEmail db e.gmailId).isSome = true →
      processEmail db [] e pb ai = db) ∧
    (∀ (db : List EmailRow) (r : EmailRow),
      (findUniqueEmail db r.gmailId).isSome = true →
      dbCreate db r = Except.error PrismaError.P2002) ∧
    (∀ (db race : List EmailRow) (e : ParsedEmail) (pb : Option (List BodyLink))
        (ai : AiOracle),
      uniqueIds (db ++ race) →
      uniqueIds (processEmail db race e pb ai) ∧
      ∀ r ∈ db, r ∈ processEmail db race e pb ai) ∧
    (∀ (items : List SyncItem) (db : List EmailRow),
      uniqueIds db → uniqueIds (processEmails db items)) :=
  ⟨processEmail_skip_of_present, dbCreate_duplicate,
   processEmail_preserves, processEmails_preserves_unique⟩

/-- C7 witness: a database holding the row m1; a sync item with the
same id is skipped; a create against the same id raises the
duplicate-key error; a run with a racing insert of m2 keeps the
invariant and the rows; a whole run keeps the invariant. -/
theorem C7_idempotent_ingestion_witness :
    ((findUniqueEmail
        [⟨str "m1", str "Hi", str "a@b.co", str "hello", false, none,
          str "none", none, none, false⟩]
        (str "m1")).isSome = true ∧
      processEmail
          [⟨str "m1", str "Hi", str "a@b.co", str "hello", false, none,
            str "none", none, none, false⟩] []
          ⟨str "m1", str "Re", str "c@d.co", str "again", false, none, str "none", []⟩
          none ⟨Except.error (str "down"), Except.error (str "down")⟩ =
        [⟨str "m1", str "Hi", str "a@b.co", str "hello", false, none,
          str "none", none, none, false⟩]) ∧
    (dbCreate
        [⟨str "m1", str "Hi", str "a@b.co", str "hello", false, none,
          str "none", none, none, false⟩]
        ⟨str "m1", str "Re", str "c@d.co", str "again", false, none,
          str "none", none, none, false⟩ =
      Except.error PrismaError.P2002) ∧
    (uniqueIds
        ([⟨str "m1", str "Hi", str "a@b.co", str "hello", false, none,
            str "none", none, none, false⟩] ++
          [⟨str "m2", str "Yo", str "e@f.co", str "racer", false, none,
            str "none", none, none, false⟩]) ∧
      uniqueIds
        (processEmail
          [⟨str "m1", str "Hi", str "a@b.co", str "hello", false, none,
            str "none", none, none, false⟩]
          [⟨str "m2", str "Yo", str "e@f.co", str "racer", false, none,
            str "none", none, none, false⟩]
          ⟨str "m3", str "New", str "g@h.co", str "fresh", false, none, str "none", []⟩
          none ⟨Except.error (str "down"), Except.error (str "down")⟩)) ∧
    (uniqueIds
        [⟨str "m1", str "Hi", str "a@b.co", str "hello", false, none,
          str "none", none, none, false⟩] ∧
      uniqueIds
        (processEmails
          [⟨str "m1", str "Hi", str "a@b.co", str "hello", false, none,
            str "none", none, none, false⟩]
          [⟨⟨str "m3", str "New", str "g@h.co", str "fresh", false, none, str "none", []⟩,
            none, ⟨Except.error (str "down"), Except.error (str "down")⟩⟩])) :=
  ⟨⟨by decide,
    C7_idempotent_ingestion.1
      [⟨str "m1", str "Hi", str "a@b.co", str "hello", false, none,
        str "none", none, none, false⟩]
      ⟨str "m1", str "Re", str "c@d.co", str "again", false, none, str "none", []⟩
      none ⟨Except.error (str "down"), Except.error (str "down")⟩ (by decide)⟩,
   C7_idempotent_ingestion.2.1
     [⟨str "m1", str "Hi", str "a@b.co", str "hello", false, none,
       str "none", none, none, false⟩]
     ⟨str "m1", str "Re", str "c@d.co", str "again", false, none,
       str "none", none, none, false⟩ (by decide),
   ⟨by decide,
    (C7_idempotent_ingestion.2.2.1
      [⟨str "m1", str "Hi", str "a@b.co", str "hello", false, none,
        str "none", none, none, false⟩]
      [⟨str "m2", str "Yo", str "e@f.co", str "racer", false, none,
        str "none", none, none, false⟩]
      ⟨str "m3", str "New", str "g@h.co", str "fresh", false, none, str "none", []⟩
      none ⟨Except.error (str "down"), Except.error (str "down")⟩ (by decide)).1⟩,
   ⟨by decide,
    C7_idempotent_ingestion.2.2.2
      [⟨⟨str "m3", str "New", str "g@h.co", str "fresh", false, none, str "none", []⟩,
        none, ⟨Except.error (str "down"), Except.error (str "down")⟩⟩]
      [⟨str "m1", str "Hi", str "a@b.co", str "hello", false, none,
        str "none", none, none, false⟩] (by decide)⟩⟩

theorem mkRow_gmailId (e : ParsedEmail) (l : Option Str) (m : Str)
    (s c : Option Str) : (mkRow e l m s c).gmailId = e.gmailId := rfl

theorem dbCreate_new (db2 : List EmailRow) (row : EmailRow)
    (h : (findUniqueEmail db2 row.gmailId).isSome = false) :
    dbCreate db2 row = Except.ok (db2 ++ [row]) := by
  simp only [dbCreate]
  rw [if_neg (by simp [h])]

theorem processEmail_new (db : List EmailRow) (e : ParsedEmail)
    (pb : Option (List BodyLink)) (ai : AiOracle)
    (hnew : (findUniqueEmail db e.gmailId).isSome = false) :
    ∃ link method, processEmail db [] e pb ai =
      db ++ [mkRow e link method (aiStep ai).1 (aiStep ai).2] := by
  refine ⟨if (extractUnsubscribeInfo pb (some e.listUnsubscribe)).method =
        UnsubMethod.link ∧
        (extractUnsubscribeInfo pb (some e.listUnsubscribe)).url.isSome = true then
      (extractUnsubscribeInfo pb (some e.listUnsubscribe)).url
    else e.unsubscribeLink,
    if (extractUnsubscribeInfo pb (some e.listUnsubscribe)).method =
        UnsubMethod.link ∧
        (extractUnsubscribeInfo pb (some e.listUnsubscribe)).url.isSome = true then
      str "link"
    else e.unsubscribeMethod, ?_⟩
  simp only [processEmail, List.append_nil]
  rw [if_neg (by simp [hnew])]
  rw [dbCreate_new db _ (by rw [mkRow_gmailId]; exact hnew)]

/-- C8 (amended): an AI failure never aborts ingestion and the loop
continues with the remaining messages.  When summarization fails the
persisted row has null summary and null category; when summarization
succeeds and only classification fails, the persisted row keeps the
obtained summary and has null category. -/
theorem C8_ai_failure_still_persists (db : List EmailRow) (e : ParsedEmail)
    (pb : Option (List BodyLink)) (ai : AiOracle)
    (hnew : (findUniqueEmail db e.gmailId).isSome = false) :
    (∀ m, ai.summarizeR = Except.error m →
      ∃ r, processEmail db [] e pb ai = db ++ [r] ∧ r.gmailId = e.gmailId ∧
        r.summary = none ∧ r.categoryId = none) ∧
    (∀ s m, ai.summarizeR = Except.ok s → ai.classifyR = Except.error m →
      ∃ r, processEmail db [] e pb ai = db ++ [r] ∧ r.gmailId = e.gmailId ∧
        r.summary = some s ∧ r.categoryId = none) ∧
    (∀ (it : SyncItem) (items : List SyncItem) (d : List EmailRow),
      processEmails d (it :: items) =
        processEmails (processEmail d [] it.email it.parsedBody it.ai) items) := by
  obtain ⟨link, method, hpe⟩ := processEmail_new db e pb ai hnew
  refine ⟨?_, ?_, ?_⟩
  · intro m hsum
    refine ⟨mkRow e link method (aiStep ai).1 (aiStep ai).2, hpe, rfl, ?_, ?_⟩
    · show (aiStep ai).1 = none
      simp [aiStep, hsum]
    · show (aiStep ai).2 = none
      simp [aiStep, hsum]
  · intro s m hsum hcls
    refine ⟨mkRow e link method (aiStep ai).1 (aiStep ai).2, hpe, rfl, ?_, ?_⟩
    · show (aiStep ai).1 = some s
      simp [aiStep, hsum, hcls]
    · show (aiStep ai).2 = none
      simp [aiStep, hsum, hcls]
  · intro it items d
    rfl

/-- C8 witness: with an empty database, a summarization failure
persists the row with null summary and category, and a
classification-only failure persists the row with the obtained summary
and null category. -/
theorem C8_ai_failure_still_persists_witness :
    ((findUniqueEmail []
        (⟨str "m9", str "Hi", str "a@b.co", str "hello", false, none,
          str "none", []⟩ : ParsedEmail).gmailId).isSome = false ∧
      (⟨Except.error (str "summarizer down"), Except.error (str "also down")⟩ :
        AiOracle).summarizeR = Except.error (str "summarizer down") ∧
      (∃ r, processEmail [] []
          ⟨str "m9", str "Hi", str "a@b.co", str "hello", false, none, str "none", []⟩
          none ⟨Except.error (str "summarizer down"), Except.error (str "also down")⟩ =
          [] ++ [r] ∧
        r.gmailId = (⟨str "m9", str "Hi", str "a@b.co", str "hello", false, none,
          str "none", []⟩ : ParsedEmail).gmailId ∧
        r.summary = none ∧ r.categoryId = none)) ∧
    ((⟨Except.ok (str "Summary"), Except.error (str "model failure")⟩ :
        AiOracle).summarizeR = Except.ok (str "Summary") ∧
      (∃ r, processEmail [] []
          ⟨str "m9", str "Hi", str "a@b.co", str "hello", false, none, str "none", []⟩
          none ⟨Except.ok (str "Summary"), Except.error (str "model failure")⟩ =
          [] ++ [r] ∧
        r.gmailId = (⟨str "m9", str "Hi", str "a@b.co", str "hello", false, none,
          str "none", []⟩ : ParsedEmail).gmailId ∧
        r.summary = some (str "Summary") ∧ r.categoryId = none)) :=
  ⟨⟨by decide, rfl,
    (C8_ai_failure_still_persists []
      ⟨str "m9", str "Hi", str "a@b.co", str "hello", false, none, str "none", []⟩
      none ⟨Except.error (str "summarizer down"), Except.error (str "also down")⟩
      (by decide)).1 (str "summarizer down") rfl⟩,
   ⟨rfl,
    (C8_ai_failure_still_persists []
      ⟨str "m9", str "Hi", str "a@b.co", str "hello", false, none, str "none", []⟩
      none ⟨Except.ok (str "Summary"), Except.error (str "model failure")⟩
      (by decide)).2.1 (str "Summary") (str "model failure") rfl rfl⟩⟩

/-- C8 counterexample: a run in which summarization succeeds and only
classification fails persists the row with the summary present, not
null, refuting the claim that the persisted row has a null summary
whenever classification or summarization fails. -/
theorem C8_nonnull_summary_counterexample :
    (⟨Except.ok (str "Summary"), Except.error (str "model failure")⟩ :
      AiOracle).classifyR = Except.error (str "model failure") ∧
    (processEmail [] []
        ⟨str "m9", str "Hi", str "a@b.co", str "hello", false, none, str "none", []⟩
        none ⟨Except.ok (str "Summary"), Except.error (str "model failure")⟩).map
      (fun r => r.summary) = [some (str "Summary")] :=
  ⟨rfl, by decide⟩
